import Mathlib

/-!
Verification of the slombardo/ansible module repository: shallow embeddings of
the DigitalOcean volume/project modules, the Meraki NAT and wireless-health
modules, and the template lookup plugin, together with theorems about the
claims of the specification.

Conventions of the embedding:
* Python JSON-like values are modelled by `PyVal`.
* Python exceptions that the embedded code can raise are modelled by `PyExn`;
  fallible code returns `Except PyExn`.
* Each module function keeps its source name where Lean allows it.
* HTTP transports (the DigitalOcean `rest` helper and the Meraki dashboard
  connection, both of which live in `module_utils`, outside this repository
  slice) are abstracted as environment records of response oracles; the
  requests a module issues are accumulated in an explicit trace list.
-/

/-- A Python value as manipulated by the modules: None, bool, int, str,
list, and string-keyed dict (in insertion order, as Python dicts preserve). -/
inductive PyVal where
  | none
  | bool (b : Bool)
  | int (n : Int)
  | str (s : String)
  | list (xs : List PyVal)
  | dict (kvs : List (String × PyVal))
deriving Repr

/-- The Python exceptions the embedded code can raise. -/
inductive PyExn where
  | keyError (k : String)
  | typeError
  | indexError
deriving Repr, DecidableEq

/-- Result of fallible Python code. -/
abbrev PyRes (α : Type) := Except PyExn α

/-- First-match lookup in an association list (Python dict read access). -/
def lookupKV {α : Type} : List (String × α) → String → Option α
  | [], _ => Option.none
  | (k, v) :: rest, key => if k = key then some v else lookupKV rest key

/-- Python subscript `v[k]` for a string key: KeyError when the key is
missing, TypeError when the value is not a dict. -/
def dictGet (v : PyVal) (k : String) : PyRes PyVal :=
  match v with
  | .dict kvs =>
      match lookupKV kvs k with
      | some w => .ok w
      | Option.none => .error (.keyError k)
  | _ => .error .typeError

/-- Python dict assignment `d[k] = v`: replaces the value of an existing key
in place, otherwise appends the new key at the end. -/
def dictSet : List (String × PyVal) → String → PyVal → List (String × PyVal)
  | [], k, v => [(k, v)]
  | (k0, v0) :: rest, k, v =>
      if k0 = k then (k0, v) :: rest else (k0, v0) :: dictSet rest k v

/-- Python truthiness of a value. -/
def pyTruthy : PyVal → Bool
  | .none => false
  | .bool b => b
  | .int n => n != 0
  | .str s => !s.isEmpty
  | .list xs => !xs.isEmpty
  | .dict kvs => !kvs.isEmpty

/-- Python equality `v == s` where one operand is a str: true exactly when
the other operand is the same str. -/
def pyStrEq (v : PyVal) (s : String) : Bool :=
  match v with
  | .str t => t = s
  | _ => false

/-- Python `str(...)`/format of the scalar values that are interpolated into
URL paths by the modules (`str(None) = "None"`, `str(False) = "False"`).
Lists and dicts are never interpolated by this code; for totality they map
to placeholder text. -/
def pyFormat : PyVal → String
  | .none => "None"
  | .bool true => "True"
  | .bool false => "False"
  | .int n => toString n
  | .str s => s
  | .list _ => "<list>"
  | .dict _ => "<dict>"

/-- An optional str module parameter as a Python value (absent = None). -/
def optStrToVal : Option String → PyVal
  | Option.none => .none
  | some s => .str s

/-- An optional int module parameter as a Python value (absent = None). -/
def optIntToVal : Option Int → PyVal
  | Option.none => .none
  | some n => .int n

/-- Truthiness of an optional str parameter (None and the empty string are
falsy). -/
def truthyOptStr (o : Option String) : Bool :=
  pyTruthy (optStrToVal o)

/-- Truthiness of an optional int parameter (None and 0 are falsy). -/
def truthyOptInt (o : Option Int) : Bool :=
  pyTruthy (optIntToVal o)

/-- Truthiness of an optional bool parameter. -/
def truthyOptBool (o : Option Bool) : Bool :=
  match o with
  | Option.none => false
  | some b => b

/-- Python `v is None`. -/
def isPyNone : PyVal → Bool
  | .none => true
  | _ => false

/-- Python `v is False`. -/
def isPyFalse : PyVal → Bool
  | .bool false => true
  | _ => false

/-- Python iteration `for x in v`: lists yield their elements, dicts their
keys, strs their one-character substrings; other values raise TypeError. -/
def asIterList : PyVal → PyRes (List PyVal)
  | .list xs => .ok xs
  | .dict kvs => .ok (kvs.map (fun kv => .str kv.1))
  | .str s => .ok (s.data.map (fun c => .str (String.mk [c])))
  | _ => .error .typeError

/-! ## digital_ocean_volume.py and digital_ocean_project_facts.py:
name-to-ID lookups -/

/-- `get_vid` of digital_ocean_volume.py: scans the volume list; on the first
element whose name field equals the searched name it returns the id field of
that element; the `return False` sits after the loop, so False is returned
only when no element matched. -/
def get_vid (name : String) : List PyVal → PyRes PyVal
  | [] => .ok (.bool false)
  | volume :: rest =>
      match dictGet volume "name" with
      | .error e => .error e
      | .ok nm =>
          if pyStrEq nm name then dictGet volume "id" else get_vid name rest

/-- `get_pid` of digital_ocean_project_facts.py: identical shape to
`get_vid`, over the project list. -/
def get_pid (name : String) : List PyVal → PyRes PyVal
  | [] => .ok (.bool false)
  | project :: rest =>
      match dictGet project "name" with
      | .error e => .error e
      | .ok nm =>
          if pyStrEq nm name then dictGet project "id" else get_pid name rest

/-- `get_sid` of digital_ocean_volume.py: the `return False` is indented
inside the loop body, so the first iteration always returns — the id when the
first element matches, False otherwise; the empty list falls off the end of
the function and yields Python None. -/
def get_sid (name : String) : List PyVal → PyRes PyVal
  | [] => .ok .none
  | snap :: _ =>
      match dictGet snap "name" with
      | .error e => .error e
      | .ok nm =>
          if pyStrEq nm name then dictGet snap "id" else .ok (.bool false)

/-- `get_did` of digital_ocean_volume.py: same early-return shape as
`get_sid`, over the droplet list. -/
def get_did (name : String) : List PyVal → PyRes PyVal
  | [] => .ok .none
  | droplet :: _ =>
      match dictGet droplet "name" with
      | .error e => .error e
      | .ok nm =>
          if pyStrEq nm name then dictGet droplet "id" else .ok (.bool false)

/-- Whether a resource dict has a name field equal to the searched name
(used to phrase first-match-wins). -/
def nameMatches (name : String) (v : PyVal) : Bool :=
  match dictGet v "name" with
  | .ok w => pyStrEq w name
  | .error _ => false

/-! ## digital_ocean_volume.py: the core function -/

/-- A request issued through the DigitalOcean rest helper. -/
inductive DOReq where
  | get (path : String)
  | getPaginated (base : String)
  | post (path : String) (payload : PyVal)
  | delete (path : String)
deriving Repr

/-- Whether a request is a read (GET / paginated GET). -/
def DOReq.isRead : DOReq → Bool
  | .get _ => true
  | .getPaginated _ => true
  | _ => false

/-- The DigitalOcean rest transport (DigitalOceanHelper lives in
module_utils, outside this repository slice): response oracles keyed by path
and payload. Each response is a status code paired with the parsed JSON
body. -/
structure DOEnv where
  get : String → Nat × PyVal
  getPaginated : String → PyVal
  post : String → PyVal → Nat × PyVal
  delete : String → Nat × PyVal

/-- The module parameters of digital_ocean_volume.py, as validated by its
argument spec. -/
structure DOParams where
  name : Option String
  description : Option String
  id : Option String
  size_gigabytes : Option Int
  resize_gigabytes : Option Int
  region : Option String
  snapshot : Option Bool
  snapshot_id : Option String
  state : String
  filesystem_type : Option String
  filesystem_label : Option String
  droplet_name : Option String
  droplet_id : Option String

/-- How a run of core terminates: `module.exit_json(changed=..., data=...)`
or `module.fail_json(...)`. An uncaught `PyExn` is reported separately
through `PyRes` (main's try/except turns it into fail_json). -/
inductive DOOutcome where
  | exitJson (changed : Bool) (data : Option PyVal)
  | failJson
deriving Repr

/-- `get_all_volumes`: GET volumes, return the body on 200, otherwise fall
off the end of the function (Python None). -/
def get_all_volumes (env : DOEnv) : PyVal :=
  let r := env.get "volumes"
  if r.1 = 200 then r.2 else .none

/-- `get_snaps`: GET the snapshots of a volume, body on 200, else None. -/
def get_snaps (env : DOEnv) (vid : PyVal) : PyVal :=
  let r := env.get ("volumes/" ++ pyFormat vid ++ "/snapshots")
  if r.1 = 200 then r.2 else .none

/-- `get_droplets`: paginated GET over the droplet collection. -/
def get_droplets (env : DOEnv) : PyVal :=
  env.getPaginated "droplets?"

/-- Line 220 to 221 of core: when the name parameter is truthy, resolve the
volume id through get_vid over the listed volumes (the subscript and the
iteration may raise); otherwise keep the id parameter. -/
def resolveVid (p : DOParams) (env : DOEnv) : List DOReq × PyRes PyVal :=
  if truthyOptStr p.name then
    ([DOReq.get "volumes"],
      match dictGet (get_all_volumes env) "volumes" with
      | .error e => .error e
      | .ok vv =>
          match asIterList vv with
          | .error e => .error e
          | .ok vols => get_vid (p.name.getD "") vols)
  else ([], .ok (optStrToVal p.id))

/-- Lines 222 to 224 of core: when the snapshot parameter is truthy and the
snapshot_id parameter is None while name is not None, resolve the snapshot
id through get_sid over the volume's snapshots; otherwise keep the
snapshot_id parameter. -/
def resolveSid (p : DOParams) (env : DOEnv) (vid : PyVal) :
    List DOReq × PyRes PyVal :=
  if truthyOptBool p.snapshot then
    if p.snapshot_id.isNone && p.name.isSome then
      ([DOReq.get ("volumes/" ++ pyFormat vid ++ "/snapshots")],
        match dictGet (get_snaps env vid) "snapshots" with
        | .error e => .error e
        | .ok sv =>
            match asIterList sv with
            | .error e => .error e
            | .ok snaps => get_sid (p.name.getD "") snaps)
    else ([], .ok (optStrToVal p.snapshot_id))
  else ([], .ok (optStrToVal p.snapshot_id))

/-- Lines 225 to 227 of core: when the droplet_name parameter is truthy,
resolve the droplet id through get_did over the paginated droplet list;
otherwise keep the droplet_id parameter. -/
def resolveDid (p : DOParams) (env : DOEnv) : List DOReq × PyRes PyVal :=
  if truthyOptStr p.droplet_name then
    ([DOReq.getPaginated "droplets?"],
      match asIterList (get_droplets env) with
      | .error e => .error e
      | .ok drops => get_did (p.droplet_name.getD "") drops)
  else ([], .ok (optStrToVal p.droplet_id))

/-- Lines 214 to 227 of core: resolve volume, snapshot and droplet ids from
the name parameters, producing the request trace of the lookups and either
the resolved `(vid, sid, did)` triple or the first uncaught exception. -/
def resolvePhase (p : DOParams) (env : DOEnv) :
    List DOReq × PyRes (PyVal × PyVal × PyVal) :=
  match resolveVid p env with
  | (tr1, .error e) => (tr1, .error e)
  | (tr1, .ok vid) =>
      match resolveSid p env vid with
      | (tr2, .error e) => (tr1 ++ tr2, .error e)
      | (tr2, .ok sid) =>
          match resolveDid p env with
          | (tr3, .error e) => (tr1 ++ tr2 ++ tr3, .error e)
          | (tr3, .ok did) => (tr1 ++ tr2 ++ tr3, .ok (vid, sid, did))

/-- Lines 264 to 270 of core: the shared tail of the two creation requests.
201 exits unchanged with the body; 409 exits changed=True with a formatted
message string (reading the id and message fields of the body, which may
itself raise); any other status fails. -/
def afterCreate (st : Nat) (j : PyVal) : PyRes DOOutcome :=
  if st = 201 then .ok (.exitJson false (some j))
  else if st = 409 then
    match dictGet j "id" with
    | .error e => .error e
    | .ok i =>
        match dictGet j "message" with
        | .error e => .error e
        | .ok m => .ok (.exitJson true (some (.str (pyFormat i ++ " - " ++ pyFormat m))))
  else .ok .failJson

/-- Lines 229 to 270 of core (`state == 'present'`): resize when
resize_gigabytes is truthy, else attach when did is truthy, else create a
volume or a snapshot. -/
def presentPhase (p : DOParams) (env : DOEnv) (vid did : PyVal) :
    List DOReq × PyRes DOOutcome :=
  if truthyOptInt p.resize_gigabytes then
    -- Resize volume
    let payload := PyVal.dict [("type", .str "resize"), ("size", optIntToVal p.resize_gigabytes)]
    let path := "volumes/" ++ pyFormat vid ++ "/action"
    let r := env.post path payload
    ([DOReq.post path payload],
      .ok (if r.1 = 202 then .exitJson true (some r.2) else .failJson))
  else if pyTruthy did then
    -- Attach volume to droplet
    let payload0 := [("type", PyVal.str "attach"), ("droplet_id", did)]
    let payload := PyVal.dict
      (if truthyOptStr p.name then dictSet payload0 "volume_name" (optStrToVal p.name) else payload0)
    let r := env.post "volumes/actions" payload
    ([DOReq.post "volumes/actions" payload],
      .ok (if r.1 = 202 then .exitJson true (some r.2) else .failJson))
  else
    -- If there's no action to perform, keep going
    let base := [("name", optStrToVal p.name)]
    if p.snapshot ≠ some true then
      -- Create volume
      let pl1 := dictSet (dictSet (dictSet base "region" (optStrToVal p.region))
        "size_gigabytes" (optIntToVal p.size_gigabytes)) "description" (optStrToVal p.description)
      let pl2 := if p.filesystem_label.isSome
        then dictSet pl1 "filesystem_type" (optStrToVal p.filesystem_type) else pl1
      let pl3 := if p.filesystem_label.isSome
        then dictSet pl2 "filesystem_label" (optStrToVal p.filesystem_label) else pl2
      let r := env.post "volumes" (.dict pl3)
      ([DOReq.post "volumes" (.dict pl3)], afterCreate r.1 r.2)
    else
      -- Create snapshot
      let path := "volumes/" ++ pyFormat vid ++ "/snapshots"
      let r := env.post path (.dict base)
      ([DOReq.post path (.dict base)], afterCreate r.1 r.2)

/-- Lines 271 to 290 of core (`state == 'absent'` and the final
exit_json(changed=False)): detach when did is neither None nor False, else
delete the volume (snapshot parameter unset) or the snapshot. -/
def absentPhase (p : DOParams) (env : DOEnv) (vid sid did : PyVal) :
    List DOReq × PyRes DOOutcome :=
  if !isPyNone did && !isPyFalse did then
    -- Detach volume from droplet
    let payload0 := [("type", PyVal.str "detach"), ("droplet_id", did)]
    let payload := PyVal.dict
      (if truthyOptStr p.region then dictSet payload0 "region" (optStrToVal p.region) else payload0)
    let path := "volumes/" ++ pyFormat vid ++ "/actions"
    let r := env.post path payload
    ([DOReq.post path payload],
      .ok (if r.1 = 202 then .exitJson true Option.none else .failJson))
  else
    let delReq : DOReq × Nat :=
      if p.snapshot.isNone then
        -- Delete a volume
        (DOReq.delete ("volumes/" ++ pyFormat vid), (env.delete ("volumes/" ++ pyFormat vid)).1)
      else
        -- Delete a snapshot
        (DOReq.delete ("snapshots/" ++ pyFormat sid), (env.delete ("snapshots/" ++ pyFormat sid)).1)
    ([delReq.1],
      .ok (if delReq.2 = 204 then .exitJson true Option.none else .exitJson false Option.none))

/-- The `core` function of digital_ocean_volume.py: name resolution followed
by the state dispatch; the result is the full request trace and the module
outcome (or the first uncaught exception, which main's try/except converts
into fail_json). -/
def core (p : DOParams) (env : DOEnv) : List DOReq × PyRes DOOutcome :=
  match resolvePhase p env with
  | (tr, .error e) => (tr, .error e)
  | (tr, .ok (vid, sid, did)) =>
      if p.state = "present" then
        let r := presentPhase p env vid did
        (tr ++ r.1, r.2)
      else if p.state = "absent" then
        let r := absentPhase p env vid sid did
        (tr ++ r.1, r.2)
      else (tr, .ok (.exitJson false Option.none))

/-! ## meraki_nat.py -/

/-- The snake_case-to-camelCase key map of meraki_nat.py (module level). -/
def key_map : List (String × String) :=
  [("name", "name"),
   ("public_ip", "publicIp"),
   ("lan_ip", "lanIp"),
   ("uplink", "uplink"),
   ("allowed_inbound", "allowedInbound"),
   ("protocol", "protocol"),
   ("destination_ports", "destinationPorts"),
   ("allowed_ips", "allowedIps"),
   ("port_rules", "portRules"),
   ("public_port", "publicPort"),
   ("local_ip", "localIp"),
   ("local_port", "localPort")]

mutual

/-- `construct_payload` of meraki_nat.py: recursively rebuilds a parameter
value, renaming every dict key through key_map (KeyError on a key outside
it), keeping str and int leaves — bool leaves included, because Python bool
is a subclass of int, so `isinstance(params, int)` holds for them and they
are returned unchanged — and mapping any other leaf (None) to Python None
by falling off the end of the function. The RHS of the Python dict
assignment (the recursive call) is evaluated before the key_map subscript. -/
def construct_payload : PyVal → PyRes PyVal
  | .list xs => do
      let ys ← cpList xs
      pure (.list ys)
  | .dict kvs => do
      let kvs2 ← cpDict kvs
      pure (.dict kvs2)
  | .str s => pure (.str s)
  | .int n => pure (.int n)
  | .none => pure .none
  | .bool b => pure (.bool b)

/-- The list loop of `construct_payload` (`for item in params`). -/
def cpList : List PyVal → PyRes (List PyVal)
  | [] => pure []
  | x :: xs => do
      let y ← construct_payload x
      let ys ← cpList xs
      pure (y :: ys)

/-- The dict loop of `construct_payload` (`for param in params:
info[key_map[param]] = construct_payload(params[param])`). -/
def cpDict : List (String × PyVal) → PyRes (List (String × PyVal))
  | [] => pure []
  | (k, v) :: rest => do
      let v2 ← construct_payload v
      match lookupKV key_map k with
      | some k2 => do
          let rest2 ← cpDict rest
          pure ((k2, v2) :: rest2)
      | Option.none => Except.error (.keyError k)

end

/-- The url_catalog entries registered by meraki_nat.py main (lines 522 to
527), with each template split around its net_id placeholder, whose textual
form in the source is the string "{net_id}". Note the source swaps the
first two: the key for the 1:many rules maps to the oneToOneNatRules path
and the key for 1:1 maps to oneToManyNatRules. -/
def natUrlTemplates : List (String × (String × String)) :=
  [("1:many", ("/networks/", "/oneToOneNatRules")),
   ("1:1", ("/networks/", "/oneToManyNatRules")),
   ("port_forwarding", ("/networks/", "/portForwardingRules"))]

/-- Modelled from the spec: `MerakiModule.construct_path` (module_utils,
outside this repository slice) looks the function key up in url_catalog and
formats the template, substituting net_id for the placeholder; a key missing
from the catalog raises KeyError. -/
def construct_path (kind netId : String) : PyRes String :=
  match lookupKV natUrlTemplates kind with
  | some parts => .ok (parts.1 ++ netId ++ parts.2)
  | Option.none => .error (.keyError kind)

/-- The path for one of the three NAT components (whose catalog lookup
always succeeds). -/
def pathOf (kind netId : String) : String :=
  match construct_path kind netId with
  | .ok s => s
  | .error _ => ""

/-- An HTTP method used by the Meraki modules. -/
inductive HttpMethod where
  | GET
  | PUT
deriving Repr, DecidableEq

/-- A request issued through `meraki.request`. -/
structure MerReq where
  path : String
  method : HttpMethod
deriving Repr, DecidableEq

/-- The Meraki dashboard transport (MerakiModule lives in module_utils,
outside this repository slice): the response body and status code for a
request, and the `is_update_required` comparison, as oracles. -/
structure MerEnv where
  request : String → HttpMethod → PyVal
  status : String → HttpMethod → Nat
  is_update_required : PyVal → PyVal → Bool

/-- The slice of `meraki.result` this module touches. -/
structure MerResult where
  data : Option PyVal
  changed : Bool
deriving Repr

/-- Modelled from the spec: MerakiModule (module_utils, outside this
repository slice) initializes the module result with no data key and
changed=False, per the changed/failed/ok trichotomy. -/
def meraki_initial_result : MerResult :=
  { data := Option.none, changed := false }

/-- Lines 507 to 516 of meraki_nat.py main: for state=present, each supplied
rule-list parameter is turned into a payload dict with a single rules key
holding its construct_payload image; for any other state all three payloads
stay None. -/
def natPayloads (state : String)
    (one_to_one one_to_many port_forwarding : Option PyVal) :
    PyRes (Option PyVal × Option PyVal × Option PyVal) :=
  if state = "present" then do
    let p1 ← match one_to_one with
      | some v => do
          let w ← construct_payload v
          pure (some (PyVal.dict [("rules", w)]))
      | Option.none => pure Option.none
    let p2 ← match one_to_many with
      | some v => do
          let w ← construct_payload v
          pure (some (PyVal.dict [("rules", w)]))
      | Option.none => pure Option.none
    let p3 ← match port_forwarding with
      | some v => do
          let w ← construct_payload v
          pure (some (PyVal.dict [("rules", w)]))
      | Option.none => pure Option.none
    pure (p1, p2, p3)
  else pure (Option.none, Option.none, Option.none)

/-- One reconciliation block of the state=present branch (lines 558 to 565
and its two copies): skip when the payload is None; otherwise GET the
current rules at the component path, and only when is_update_required holds
issue a PUT there, setting result data (under the component result key) and
changed=True exactly when the PUT status is 200. -/
def natPresentBlock (env : MerEnv) (path dataKey : String)
    (payload : Option PyVal) (r : MerResult) : MerResult × List MerReq :=
  match payload with
  | Option.none => (r, [])
  | some pl =>
      let current := env.request path .GET
      if env.is_update_required current pl then
        let resp := env.request path .PUT
        let r2 := if env.status path .PUT = 200
          then { data := some (.dict [(dataKey, resp)]), changed := true }
          else r
        (r2, [⟨path, .GET⟩, ⟨path, .PUT⟩])
      else (r, [⟨path, .GET⟩])

/-- Lines 557 to 581 of meraki_nat.py main: the three sequential
reconciliation blocks of the state=present branch, started from the initial
module result. -/
def natPresent (env : MerEnv) (netId : String)
    (o2oP o2mP pfP : Option PyVal) : MerResult × List MerReq :=
  let b1 := natPresentBlock env (pathOf "1:1" netId) "one_to_one" o2oP meraki_initial_result
  let b2 := natPresentBlock env (pathOf "1:many" netId) "one_to_many" o2mP b1.1
  let b3 := natPresentBlock env (pathOf "port_forwarding" netId) "port_forwarding" pfP b2.1
  (b3.1, b1.2 ++ b2.2 ++ b3.2)

/-- Lines 541 to 548 of meraki_nat.py main: the subset=all branch of
state=query; a dict is built with the 1:many response, then the 1:1 and
port_forwarding responses are assigned into it, and it becomes result data. -/
def natQueryAll (env : MerEnv) (netId : String) (r0 : MerResult) :
    MerResult × List MerReq :=
  let p1 := pathOf "1:many" netId
  let d1 := [("1:many", env.request p1 .GET)]
  let p2 := pathOf "1:1" netId
  let d2 := dictSet d1 "1:1" (env.request p2 .GET)
  let p3 := pathOf "port_forwarding" netId
  let d3 := dictSet d2 "port_forwarding" (env.request p3 .GET)
  ({ r0 with data := some (.dict d3) },
   [⟨p1, .GET⟩, ⟨p2, .GET⟩, ⟨p3, .GET⟩])

/-- Lines 550 to 556 of meraki_nat.py main: the per-subset loop of
state=query; each iteration GETs the subset path and stores a
single-key dict under result data, creating result data in the
except-KeyError arm when the data key does not exist yet (a result data that
exists but is not a dict would raise TypeError, which is not caught). -/
def natQueryLoop (env : MerEnv) (netId : String) :
    List String → MerResult → PyRes (MerResult × List MerReq)
  | [], r => .ok (r, [])
  | s :: rest, r =>
      match construct_path s netId with
      | .error e => .error e
      | .ok path =>
          let resp := env.request path .GET
          let data := PyVal.dict [(s, resp)]
          match r.data with
          | some (.dict m) =>
              match natQueryLoop env netId rest { r with data := some (.dict (dictSet m s data)) } with
              | .error e => .error e
              | .ok (r2, tr) => .ok (r2, ⟨path, .GET⟩ :: tr)
          | some _ => .error .typeError
          | Option.none =>
              match natQueryLoop env netId rest { r with data := some (.dict [(s, data)]) } with
              | .error e => .error e
              | .ok (r2, tr) => .ok (r2, ⟨path, .GET⟩ :: tr)

/-- Lines 540 to 556 of meraki_nat.py main: the state=query dispatch;
subset[0] raises IndexError on an empty list, the value "all" selects the
all branch, anything else runs the per-subset loop. -/
def natQuery (env : MerEnv) (netId : String) (subset : List String)
    (r0 : MerResult) : PyRes (MerResult × List MerReq) :=
  match subset with
  | [] => .error .indexError
  | s :: rest =>
      if s = "all" then .ok (natQueryAll env netId r0)
      else natQueryLoop env netId (s :: rest) r0

/-! ## meraki_wireless_health_facts.py -/

/-- `list_to_csv` loop body: i is the enumerate index, n the fixed
`len(data)` of the full input; the separator is omitted only when i equals
n. -/
def list_to_csv_go (n : Nat) : Nat → String → List String → String
  | _, items, [] => items
  | i, items, item :: rest =>
      list_to_csv_go n (i + 1)
        (if i = n then items ++ item else items ++ item ++ ",") rest

/-- `list_to_csv` of meraki_wireless_health_facts.py: concatenates the
elements with a comma appended after each, the last-element test `i ==
len(data)` deciding whether to omit the separator. -/
def list_to_csv (data : List String) : String :=
  list_to_csv_go data.length 0 "" data

/-- The module parameters of meraki_wireless_health_facts.py. The `type`
and `end` parameters are Lean keywords and appear as `typ` and `end_`. -/
structure WHParams where
  net_id : Option String
  net_name : Option String
  org_id : Option String
  org_name : Option String
  typ : Option String
  group_by : Option String
  client : Option String
  serial : Option String
  start : Option Int
  end_ : Option Int
  ssid : Option String
  vlan : Option String
  fields : Option (List String)
  client_id : Option String

/-- A request issued through `meraki.request` by this module: the path with
encoded URL parameters, and the JSON payload. -/
structure WHReq where
  path : String
  payload : PyVal
deriving Repr

/-- The transport and resolution helpers of MerakiModule (module_utils,
outside this repository slice), as oracles: organization and network
resolution, URL parameter encoding of the start and end values (aliased t0
and t1), the response of a request, and its status code. -/
structure WHEnv where
  get_org_id : String → String
  get_nets : PyVal → PyVal
  get_net_id : Option String → PyVal → String
  encode_params : Option Int → Option Int → String
  request : String → PyVal → PyVal
  status : String → Nat

/-- How a run of meraki_wireless_health_facts.py main terminates:
fail_json, the bare check-mode `return`, or exit_json with the module
result. -/
inductive WHOutcome where
  | failJson (msg : String)
  | returned (r : MerResult)
  | exitJson (r : MerResult)
deriving Repr

/-- The url_catalog entries registered by meraki_wireless_health_facts.py
(lines 122 to 143), with each template split around its net_id placeholder
(textually "{net_id}" in the source). The source maps the
connectivity_net_group_client key to the node URL set, and misspells one
latency key as latnecy_net_group_client. -/
def whfUrlTemplates : List (String × (String × String)) :=
  [("connectivity_net", ("/networks/", "/connectionStats")),
   ("connectivity_net_group_node", ("/networks/", "/devices/connectionStats")),
   ("connectivity_net_group_client", ("/networks/", "/devices/connectionStats")),
   ("connectivity_ap", ("/networks/", "/devices/[serial]/connectionStats")),
   ("connectivity_client", ("/networks/", "/clients/[clientId]/connectionStats")),
   ("latency_net", ("/networks/", "/latencyStats")),
   ("latency_net_group_node", ("/networks/", "/devices/latencyStats")),
   ("latnecy_net_group_client", ("/networks/", "/clients/latencyStats")),
   ("latency_ap", ("/networks/", "/devices/[serial]/latencyStats")),
   ("latency_client", ("/networks/", "/clients/[clientId]/latencyStats")),
   ("failed_client", ("/networks/", "/failedConnections"))]

/-- The formatted catalog path of a wireless-health component. -/
def whfPathOf (kind netId : String) : String :=
  match lookupKV whfUrlTemplates kind with
  | some parts => parts.1 ++ netId ++ parts.2
  | Option.none => ""

/-- Line 149 of main: `if not meraki.params['net_name'] or
meraki.params['net_id']:` guards the requirement that org_name or org_id be
present; this is the condition under which that fail_json fires. -/
def whfOrgMissing (p : WHParams) : Bool :=
  (!truthyOptStr p.net_name || truthyOptStr p.net_id)
    && !truthyOptStr p.org_name && !truthyOptStr p.org_id

/-- Line 153 of main: net_name and net_id are mutually exclusive. -/
def whfNetConflict (p : WHParams) : Bool :=
  truthyOptStr p.net_name && truthyOptStr p.net_id

/-- Lines 163 to 171 of main: the payload dict (t0 and t1 always, ssid and
vlan when truthy, fields as a csv string when truthy). -/
def whfPayload (p : WHParams) : PyVal :=
  let pl := [("t0", optIntToVal p.start), ("t1", optIntToVal p.end_)]
  let pl := if truthyOptStr p.ssid then dictSet pl "ssid" (optStrToVal p.ssid) else pl
  let pl := if truthyOptStr p.vlan then dictSet pl "vlan" (optStrToVal p.vlan) else pl
  let pl := match p.fields with
    | some fs => if !fs.isEmpty then dictSet pl "fields" (.str (list_to_csv fs)) else pl
    | Option.none => pl
  .dict pl

/-- The main function of meraki_wireless_health_facts.py after argument
parsing (lines 145 to 201): parameter validation, the check-mode early
return, payload construction, organization and network resolution through
the module_utils oracles (whose internal requests are not part of this
module's trace), and the type dispatch — only type=connectivity builds a
path and issues a request, storing its body as result data on status 200;
every other type value exits with the untouched result. -/
def whfMain (p : WHParams) (checkMode : Bool) (env : WHEnv) (r0 : MerResult) :
    WHOutcome × List WHReq :=
  if whfOrgMissing p then
    (.failJson "org_name or org_id parameters are required", [])
  else if whfNetConflict p then
    (.failJson "net_name and net_id are mutually exclusive", [])
  else if checkMode then
    (.returned r0, [])
  else
    let payload := whfPayload p
    let orgIdV := optStrToVal p.org_id
    let orgIdV := if !pyTruthy orgIdV && truthyOptStr p.org_name
      then PyVal.str (env.get_org_id (p.org_name.getD "")) else orgIdV
    let netId := if p.net_id.isNone
      then env.get_net_id p.net_name (env.get_nets orgIdV)
      else p.net_id.getD ""
    if p.typ = some "connectivity" then
      let base :=
        if p.group_by = some "client" then whfPathOf "connectivity_net_group_client" netId
        else if p.group_by = some "node" then whfPathOf "connectivity_net_group_node" netId
        else whfPathOf "connectivity_net" netId
      let path := base ++ env.encode_params p.start p.end_
      let r := env.request path payload
      let res := if env.status path = 200 then { r0 with data := some r } else r0
      (.exitJson res, [⟨path, payload⟩])
    else
      (.exitJson r0, [])

/-! ## plugins/lookup/template.py -/

/-- The runtime context of the template lookup plugin: the
find_file_in_search_path resolution (None when no file is found) and the
templating of a resolved file (file reading, search-path setup and Jinja2
rendering collapse into one oracle keyed by the resolved file). -/
structure TplEnv where
  find_file : String → Option String
  render : String → PyVal

/-- The AnsibleError message raised for an unresolved term. -/
def tplErrorMsg (term : String) : String :=
  "the template file " ++ term ++ " could not be found for the lookup"

/-- `LookupModule.run` of plugins/lookup/template.py over its term list:
each term is resolved through find_file_in_search_path; a truthy result is
templated and appended to the returned list, anything else raises
AnsibleError, aborting the run at that term. -/
def lookupRun (env : TplEnv) : List String → Except String (List PyVal)
  | [] => .ok []
  | term :: rest =>
      match env.find_file term with
      | some f =>
          if !f.isEmpty then
            match lookupRun env rest with
            | .ok rs => .ok (env.render f :: rs)
            | .error e => .error e
          else .error (tplErrorMsg term)
      | Option.none => .error (tplErrorMsg term)

/-! ## The shipped text of digital_ocean_volume.py (for the claims about its
source) -/

/-- Scans whether the pattern is a prefix of the character list. -/
def listHasPfx : List Char → List Char → Bool
  | _, [] => true
  | [], _ :: _ => false
  | c :: cs, p :: ps => c == p && listHasPfx cs ps

/-- Scans whether the pattern occurs as a contiguous sublist. -/
def listHasSub : List Char → List Char → Bool
  | [], pat => pat.isEmpty
  | c :: cs, pat => listHasPfx (c :: cs) pat || listHasSub cs pat

/-- Whether pat occurs as a substring of s. -/
def strHasSub (s pat : String) : Bool :=
  listHasSub s.data pat.data

/-- Leading spaces of a line, dropped. -/
def dropSpaces : List Char → List Char
  | ' ' :: rest => dropSpaces rest
  | l => l

/-- Whether a Python source line is a comment line: its first non-space
character is the hash sign. -/
def isCommentLine (s : String) : Bool :=
  match dropSpaces s.data with
  | '#' :: _ => true
  | _ => false

/-- The 328 lines of the shipped
src/lib/ansible/modules/cloud/digital_ocean/digital_ocean_volume.py,
verbatim (escape sequences denote the literal characters). -/
def do_volume_lines : List String :=
  ["#!/usr/bin/python",
   "# -*- coding: utf-8 -*-",
   "",
   "# Copyright: Ansible Project",
   "# GNU General Public License v3.0+ (see COPYING or https://www.gnu.org/licenses/gpl-3.0.txt)",
   "",
   "from __future__ import absolute_import, division, print_function",
   "__metaclass__ = type",
   "",
   "",
   "ANSIBLE_METADATA = \x7b\x27metadata_version\x27: \x271.1\x27,",
   "                    \x27status\x27: [\x27preview\x27],",
   "                    \x27supported_by\x27: \x27community\x27\x7d",
   "",
   "",
   "DOCUMENTATION = \x27\x27\x27",
   "---",
   "module: digital_ocean_volume  ",
   "short_description: Create and delete Digital Ocean block storage volumes.",
   "description:",
   "    - Create and delete Digital Ocean block storage volumes.",
   "author: \"Kevin Breit (@kbreit)\"",
   "version_added: \"2.8\"",
   "options:",
   "  name:",
   "    description:",
   "      - Name of volume or snapshot.",
   "      - Value is name of snapshot, if snapshot is true.",
   "  description:",
   "    description:",
   "      - Description of volume.",
   "  id:",
   "    description:",
   "      - ID number of volume as assigned by DigitalOcean.",
   "  size_gigabytes:",
   "    description:",
   "      - Number of gigabytes to allocate to volume.",
   "    type: int",
   "  resize_gigabytes:",
   "    description:",
   "      - Number of gigabytes to grow volume to.",
   "      - Volumes can only be increased in size.",
   "    type: int",
   "  region:",
   "    description:",
   "      - Digital Ocean region to create volume in.",
   "  snapshot:",
   "    description:",
   "      - If true, actions are performed against snapshot instead of volume.",
   "    type: bool",
   "  snapshot_id:",
   "    description:",
   "      - ID number of snapshot.",
   "  state:",
   "    description:",
   "      - Whether to create/modify, or delete a volume.",
   "      - Present will attach to a droplet if droplet information is provided. Absent will detach from a droplet if droplet information is provided.",
   "    choices: [\x27absent\x27, \x27present\x27]",
   "    default: present",
   "  filesystem_type:",
   "    description:",
   "      - Filesystem of volume to create.",
   "  filesystem_label:",
   "    description:",
   "      - Filesystems labels for volume.",
   "  droplet_name:",
   "    description:",
   "      - Name of droplet to attach volume to or detach from.",
   "  droplet_id:",
   "    description:",
   "      - ID of droplet to attach volume to or detach from.",
   "",
   "extends_documentation_fragment: digital_ocean.documentation",
   "notes:",
   "  - Two environment variables can be used, DO_API_KEY and DO_API_TOKEN.",
   "    They both refer to the v2 token.",
   "  - As of Ansible 2.0, Version 2 of the DigitalOcean API is used.",
   "",
   "requirements:",
   "  - \"python >= 2.6\"",
   "\x27\x27\x27",
   "",
   "",
   "EXAMPLES = \x27\x27\x27",
   "- name: Create volume",
   "  digital_ocean_volume:",
   "    oauth_token: abc123",
   "    state: present",
   "    name: ansiblevolume",
   "    size_gigabytes: 1",
   "    description: Ansible test volume",
   "    region: nyc1",
   "",
   "- name: Convert to snapshot",
   "  digital_ocean_volume:",
   "    oauth_token: abc123",
   "    state: present",
   "    name: ansiblevolume",
   "    snapshot: yes",
   "      ",
   "- name: Attach to existing Droplet by name",
   "  digital_ocean_volume:",
   "    oauth_token: abc123",
   "    state: present",
   "    name: ansiblevolume",
   "    resize_gigabytes: 2",
   "      ",
   "- name: Attach to existing Droplet by name",
   "  digital_ocean_volume:",
   "    oauth_token: abc123",
   "    state: present",
   "    name: ansiblevolume",
   "    region: nyc1",
   "    droplet_name: web_server",
   "",
   "- name: Detach Droplet",
   "  digital_ocean_volume:",
   "    oauth_token: abc123",
   "    state: absent",
   "    name: ansiblevolume",
   "    droplet_name: web_server",
   "",
   "- name: Attach Droplet by ID",
   "  digital_ocean_volume:",
   "    oauth_token: abc123",
   "    state: present",
   "    name: ansiblevolume",
   "    droplet_id: 1234567890",
   "",
   "- name: Detach Droplet by ID",
   "  digital_ocean_volume:",
   "    oauth_token: abc123",
   "    state: absent",
   "    name: ansiblevolume",
   "    droplet_id: 1234567890",
   "",
   "- name: Delete snapshot",
   "  digital_ocean_volume:",
   "    oauth_token: abc123",
   "    state: absent",
   "    name: ansiblevolume",
   "    snapshot: yes",
   "",
   "- name: Delete volume",
   "  digital_ocean_volume:",
   "    oauth_token: abc123",
   "    state: absent",
   "    name: ansiblevolume",
   "\x27\x27\x27",
   "",
   "",
   "RETURN = \x27\x27\x27",
   "data:",
   "    description: a DigitalOcean Tag resource",
   "    returned: success and no resource constraint",
   "    type: dict",
   "    sample: \x7b",
   "        \"tag\": \x7b",
   "        \"name\": \"awesome\",",
   "        \"resources\": \x7b",
   "          \"droplets\": \x7b",
   "            \"count\": 0,",
   "            \"last_tagged\": null",
   "          \x7d",
   "        \x7d",
   "      \x7d",
   "    \x7d",
   "\x27\x27\x27",
   "",
   "from traceback import format_exc",
   "from ansible.module_utils.basic import AnsibleModule",
   "from ansible.module_utils.digital_ocean import DigitalOceanHelper",
   "from ansible.module_utils._text import to_native",
   "",
   "",
   "def get_all_volumes(rest):",
   "    response = rest.get(\x27volumes\x27)",
   "    if response.status_code == 200:",
   "        return response.json",
   "",
   "",
   "def get_snaps(rest, vid):",
   "    response = rest.get(\x27volumes/\x7b0\x7d/snapshots\x27.format(vid))",
   "    if response.status_code == 200:",
   "        return response.json",
   "        ",
   "        ",
   "def get_droplets(rest):",
   "    response = rest.get_paginated_data(base_url=\x27droplets?\x27, data_key_name=\x27droplets\x27)",
   "    return response",
   "",
   "",
   "def get_vid(name, volumes):",
   "    for volume in volumes:",
   "        if volume[\x27name\x27] == name:",
   "            return volume[\x27id\x27]",
   "    return False",
   "",
   "",
   "def get_sid(name, snaps):",
   "    for snap in snaps:",
   "        if name == snap[\x27name\x27]:",
   "            return snap[\x27id\x27]",
   "        return False",
   "        ",
   "def get_did(name, droplets):",
   "    for droplet in droplets:",
   "        if name == droplet[\x27name\x27]:",
   "            return droplet[\x27id\x27]",
   "        return False",
   "",
   "",
   "def core(module):",
   "    name = module.params[\x27name\x27]",
   "    vid = module.params[\x27id\x27]",
   "    sid = module.params[\x27snapshot_id\x27]",
   "    did = module.params[\x27droplet_id\x27]",
   "    rest = DigitalOceanHelper(module)",
   "",
   "    if name:",
   "        vid = get_vid(name, get_all_volumes(rest)[\x27volumes\x27])",
   "    if module.params[\x27snapshot\x27]:",
   "        if sid is None and name is not None:",
   "            sid = get_sid(name, get_snaps(rest, vid)[\x27snapshots\x27])",
   "    if module.params[\x27droplet_name\x27]:",
   "        # module.fail_json(msg=get_droplets(rest))",
   "        did = get_did(module.params[\x27droplet_name\x27], get_droplets(rest))",
   "",
   "    if module.params[\x27state\x27] == \x27present\x27:",
   "        if module.params[\x27resize_gigabytes\x27]:  # Resize volume",
   "            payload = \x7b\x27type\x27: \x27resize\x27,",
   "                       \x27size\x27: module.params[\x27resize_gigabytes\x27],",
   "                       \x7d",
   "            response = rest.post(\x27volumes/\x7b0\x7d/action\x27.format(vid), payload)",
   "            if response.status_code == 202:",
   "                module.exit_json(changed=True, data=response.json)",
   "            else:",
   "                module.fail_json(changed=False)",
   "        elif did:  # Attach volume to droplet",
   "            payload = \x7b\x27type\x27: \x27attach\x27,",
   "                       \x27droplet_id\x27: did,",
   "                       \x7d",
   "            if name:",
   "                payload[\x27volume_name\x27] = name",
   "            response = rest.post(\x27volumes/actions\x27, payload)",
   "            if response.status_code == 202:",
   "                module.exit_json(changed=True, data=response.json)",
   "            else:",
   "                module.fail_json(msg=response.status_code)",
   "        ",
   "        # If there\x27s no action to perform, keep going",
   "        payload = \x7b\x27name\x27: name\x7d",
   "        if module.params[\x27snapshot\x27] is not True:  # Create volume",
   "            payload[\x27region\x27] = module.params[\x27region\x27]",
   "            payload[\x27size_gigabytes\x27] = module.params[\x27size_gigabytes\x27]",
   "            payload[\x27description\x27] = module.params[\x27description\x27]",
   "            if module.params[\x27filesystem_label\x27] is not None:",
   "                payload[\x27filesystem_type\x27] = module.params[\x27filesystem_type\x27]",
   "            if module.params[\x27filesystem_label\x27] is not None:",
   "                payload[\x27filesystem_label\x27] = module.params[\x27filesystem_label\x27]",
   "            response = rest.post(\x27volumes\x27, data=payload)",
   "        else:",
   "            response = rest.post(\x27volumes/\x7b0\x7d/snapshots\x27.format(vid), data=payload)  # Create snapshot",
   "        if response.status_code == 201:",
   "            module.exit_json(changed=False, data=response.json)",
   "        elif response.status_code == 409:  # Error of some sort",
   "            # TODO: Allow data to be returned",
   "            module.exit_json(changed=True, data=\x27\x7b0\x7d - \x7b1\x7d\x27.format(response.json[\x27id\x27], response.json[\x27message\x27]))",
   "        else:",
   "            module.fail_json(msg=response.json)",
   "    elif module.params[\x27state\x27] == \x27absent\x27:",
   "        if did is not None and did is not False:  # Detach volume from droplet",
   "            payload = \x7b\x27type\x27: \x27detach\x27,",
   "                       \x27droplet_id\x27: did,",
   "                       \x7d",
   "            if module.params[\x27region\x27]:",
   "                payload[\x27region\x27] = module.params[\x27region\x27]",
   "            # module.fail_json(msg=payload)",
   "            response = rest.post(\x27volumes/\x7b0\x7d/actions\x27.format(vid), data=payload)",
   "            if response.status_code == 202:",
   "                module.exit_json(changed=True)",
   "            else:",
   "                module.fail_json(msg=response.info)",
   "        if module.params[\x27snapshot\x27] is None:  # Delete a volume",
   "            response = rest.delete(\x27volumes/\x7b0\x7d\x27.format(vid))",
   "        else:  # Delete a snapshot",
   "            response = rest.delete(\x27snapshots/\x7b0\x7d\x27.format(sid))",
   "        if response.status_code == 204:",
   "            module.exit_json(changed=True)",
   "    module.exit_json(changed=False)",
   "",
   "",
   "def main():",
   "    argument_spec = DigitalOceanHelper.digital_ocean_argument_spec()",
   "    argument_spec.update(",
   "        size_gigabytes=dict(type=\x27int\x27, aliases=[\x27size\x27]),",
   "        resize_gigabytes=dict(type=\x27int\x27, aliases=[\x27resize\x27]),",
   "        name=dict(type=\x27str\x27),",
   "        description=dict(type=\x27str\x27),",
   "        id=dict(type=\x27str\x27),",
   "        region=dict(type=\x27str\x27),",
   "        snapshot_id=dict(type=\x27str\x27),",
   "        filesystem_type=dict(type=\x27str\x27),",
   "        filesystem_label=dict(type=\x27str\x27),",
   "        state=dict(type=\x27str\x27, choices=[\x27absent\x27, \x27present\x27], default=\x27present\x27),",
   "        snapshot=dict(type=\x27bool\x27),",
   "        droplet_name=dict(type=\x27str\x27),",
   "        droplet_id=dict(type=\x27str\x27),",
   "    )",
   "    ",
   "    mutually_exclusive = [[\x27name\x27, \x27id\x27],",
   "                          [\x27droplet_name\x27, \x27droplet_id\x27],",
   "                          [\x27droplet_name\x27, \x27resize_size\x27],",
   "                          [\x27droplet_id\x27, \x27resize_size\x27],",
   "                          ]",
   "",
   "    module = AnsibleModule(argument_spec=argument_spec)",
   "                           # mututally_exclusive=mutually_exclusive)",
   "",
   "    try:",
   "        core(module)",
   "    except Exception as e:",
   "        module.fail_json(msg=to_native(e), exception=format_exc())",
   "",
   "",
   "if __name__ == \x27__main__\x27:",
   "    main()",
   ""]


/-! ## Specification-side definitions for the claims -/

/-- Concatenation of a list of strings. -/
def joinAll : List String → String
  | [] => ""
  | s :: rest => s ++ joinAll rest

/-- The templated result of a resolved term. -/
def tplRendered (env : TplEnv) (t : String) : PyVal :=
  env.render ((env.find_file t).getD "")

mutual

/-- Specification-side renaming for C10, following the words of the claim:
every dict key k is replaced by its key_map image (the key itself when it is
missing, a case the accompanying theorem's hypothesis rules out), the shape
and the str and int leaves are kept. -/
def renameKeys : PyVal → PyVal
  | .list xs => .list (rkList xs)
  | .dict kvs => .dict (rkDict kvs)
  | .str s => .str s
  | .int n => .int n
  | .none => .none
  | .bool b => .bool b

/-- renameKeys over a list of values. -/
def rkList : List PyVal → List PyVal
  | [] => []
  | x :: xs => renameKeys x :: rkList xs

/-- renameKeys over the entries of a dict. -/
def rkDict : List (String × PyVal) → List (String × PyVal)
  | [] => []
  | (k, v) :: rest => ((lookupKV key_map k).getD k, renameKeys v) :: rkDict rest

end

mutual

/-- A value built only from nested lists, dicts, strs and ints whose dict
keys all occur in key_map (the domain of the main C10 statement). -/
def goodVal : PyVal → Bool
  | .list xs => goodList xs
  | .dict kvs => goodDict kvs
  | .str _ => true
  | .int _ => true
  | .none => false
  | .bool _ => false

/-- goodVal over a list of values. -/
def goodList : List PyVal → Bool
  | [] => true
  | x :: xs => goodVal x && goodList xs

/-- goodVal over the entries of a dict. -/
def goodDict : List (String × PyVal) → Bool
  | [] => true
  | (k, v) :: rest => (lookupKV key_map k).isSome && goodVal v && goodDict rest

end

mutual

/-- Shape equality of two values: same constructor on leaves, equal lengths
and pointwise shape equality on lists, equal entry counts and pointwise
shape equality of the values on dicts (keys may differ). -/
def sameShape : PyVal → PyVal → Bool
  | .list xs, .list ys => sameShapeList xs ys
  | .dict a, .dict b => sameShapeDict a b
  | .str _, .str _ => true
  | .int _, .int _ => true
  | .none, .none => true
  | .bool _, .bool _ => true
  | _, _ => false

/-- Pointwise shape equality of value lists. -/
def sameShapeList : List PyVal → List PyVal → Bool
  | [], [] => true
  | x :: xs, y :: ys => sameShape x y && sameShapeList xs ys
  | _, _ => false

/-- Pointwise shape equality of dict entry lists. -/
def sameShapeDict : List (String × PyVal) → List (String × PyVal) → Bool
  | [], [] => true
  | (_, v) :: a, (_, w) :: b => sameShape v w && sameShapeDict a b
  | _, _ => false

end

/-- Whether one component of the state=present branch considers an update
required: false when its payload is absent, otherwise the
is_update_required comparison between the GET response at the given path
and the payload. -/
def bRequired (env : MerEnv) (path : String) (pl : Option PyVal) : Bool :=
  match pl with
  | Option.none => false
  | some pl => env.is_update_required (env.request path .GET) pl

/-! # Theorems -/

/-! ## C1: first-match-wins name resolution in get_vid and get_pid -/

/-- Helper: get_vid is characterized by the first list element whose name
field matches, provided every element has a readable name field. -/
theorem get_vid_find_spec (name : String) :
    ∀ volumes : List PyVal, (∀ v ∈ volumes, (dictGet v "name").isOk = true) →
    get_vid name volumes = (match volumes.find? (nameMatches name) with
      | some v => dictGet v "id"
      | Option.none => .ok (.bool false))
  | [], _ => by simp [get_vid]
  | v :: vs, h => by
      have hv := h v (List.mem_cons_self v vs)
      cases hnm : dictGet v "name" with
      | error e => rw [hnm] at hv; simp [Except.isOk, Except.toBool] at hv
      | ok w =>
          have hmatch : nameMatches name v = pyStrEq w name := by
            simp [nameMatches, hnm]
          rw [List.find?_cons]
          cases hs : pyStrEq w name with
          | true => simp [get_vid, hnm, hs, hmatch]
          | false =>
              simp only [get_vid, hnm, hs, hmatch, if_false, Bool.false_eq_true,
                cond_false]
              exact get_vid_find_spec name vs (fun x hx => h x (List.mem_cons_of_mem v hx))

/-- Helper: the same characterization for get_pid. -/
theorem get_pid_find_spec (name : String) :
    ∀ projects : List PyVal, (∀ v ∈ projects, (dictGet v "name").isOk = true) →
    get_pid name projects = (match projects.find? (nameMatches name) with
      | some v => dictGet v "id"
      | Option.none => .ok (.bool false))
  | [], _ => by simp [get_pid]
  | v :: vs, h => by
      have hv := h v (List.mem_cons_self v vs)
      cases hnm : dictGet v "name" with
      | error e => rw [hnm] at hv; simp [Except.isOk, Except.toBool] at hv
      | ok w =>
          have hmatch : nameMatches name v = pyStrEq w name := by
            simp [nameMatches, hnm]
          rw [List.find?_cons]
          cases hs : pyStrEq w name with
          | true => simp [get_pid, hnm, hs, hmatch]
          | false =>
              simp only [get_pid, hnm, hs, hmatch, if_false, Bool.false_eq_true,
                cond_false]
              exact get_pid_find_spec name vs (fun x hx => h x (List.mem_cons_of_mem v hx))

/-- C1: get_vid (volumes) and get_pid (projects) resolve a name with
first-match-wins and a False sentinel: each returns the id field of the
first element whose name field equals the given name, and returns False
when no element matches, regardless of any later matching elements. -/
theorem c1_first_match_wins (name : String) (volumes projects : List PyVal)
    (hv : ∀ v ∈ volumes, (dictGet v "name").isOk = true)
    (hp : ∀ v ∈ projects, (dictGet v "name").isOk = true) :
    get_vid name volumes = (match volumes.find? (nameMatches name) with
      | some v => dictGet v "id"
      | Option.none => .ok (.bool false))
    ∧ get_pid name projects = (match projects.find? (nameMatches name) with
      | some v => dictGet v "id"
      | Option.none => .ok (.bool false)) :=
  ⟨get_vid_find_spec name volumes hv, get_pid_find_spec name projects hp⟩

/-- Witness for C1 at a concrete duplicated-name list: the first matching
element's id wins. -/
theorem c1_first_match_wins_witness :
    get_vid "a" [PyVal.dict [("name", .str "a"), ("id", .str "v1")],
                 PyVal.dict [("name", .str "a"), ("id", .str "v2")]] = .ok (.str "v1")
    ∧ get_pid "a" [PyVal.dict [("name", .str "a"), ("id", .str "v1")],
                   PyVal.dict [("name", .str "a"), ("id", .str "v2")]] = .ok (.str "v1") := by
  have hwf : ∀ v ∈ [PyVal.dict [("name", .str "a"), ("id", .str "v1")],
      PyVal.dict [("name", .str "a"), ("id", .str "v2")]], (dictGet v "name").isOk = true := by
    intro v hv
    rcases List.mem_cons.mp hv with h | hv2
    · rw [h]; rfl
    · rcases List.mem_cons.mp hv2 with h | h3
      · rw [h]; rfl
      · cases h3
  have h := c1_first_match_wins "a" _ _ hwf hwf
  exact ⟨h.1.trans (by rfl), h.2.trans (by rfl)⟩

/-! ## C2: the early-exit bug of get_sid and get_did -/

/-- C2: get_sid and get_did decide on the first element alone — the result
on a non-empty list is the result on its head-only list (so a later match
is never seen), the head's id is returned when the head's name matches and
False when it does not, and the empty list yields None. -/
theorem c2_early_exit (name : String) (x : PyVal) (rest : List PyVal) (w : PyVal)
    (hx : dictGet x "name" = .ok w) :
    (get_sid name (x :: rest) = get_sid name [x]
       ∧ get_did name (x :: rest) = get_did name [x])
    ∧ (pyStrEq w name = true →
        get_sid name (x :: rest) = dictGet x "id"
          ∧ get_did name (x :: rest) = dictGet x "id")
    ∧ (pyStrEq w name = false →
        get_sid name (x :: rest) = .ok (.bool false)
          ∧ get_did name (x :: rest) = .ok (.bool false))
    ∧ get_sid name ([] : List PyVal) = .ok .none
    ∧ get_did name ([] : List PyVal) = .ok .none := by
  refine ⟨⟨rfl, rfl⟩, ?_, ?_, rfl, rfl⟩
  · intro hs
    constructor <;> simp [get_sid, get_did, hx, hs]
  · intro hs
    constructor <;> simp [get_sid, get_did, hx, hs]

/-- Witness for C2: a list whose first snapshot does not match while the
second does still yields False. -/
theorem c2_early_exit_witness :
    get_sid "b" [PyVal.dict [("name", .str "a"), ("id", .str "s1")],
                 PyVal.dict [("name", .str "b"), ("id", .str "s2")]] = .ok (.bool false)
    ∧ get_did "b" [PyVal.dict [("name", .str "a"), ("id", .str "s1")],
                   PyVal.dict [("name", .str "b"), ("id", .str "s2")]] = .ok (.bool false) := by
  have h := c2_early_exit "b" (PyVal.dict [("name", .str "a"), ("id", .str "s1")])
    [PyVal.dict [("name", .str "b"), ("id", .str "s2")]] (.str "a") rfl
  exact h.2.2.1 rfl

/-! ## C8: list_to_csv appends a separator after every element -/

/-- Helper: the loop of list_to_csv, under the enumerate invariant that the
index plus the remaining length equals the fixed total length, appends a
comma after every remaining element. -/
theorem list_to_csv_go_spec (n : Nat) :
    ∀ (xs : List String) (i : Nat) (acc : String), i + xs.length = n →
    list_to_csv_go n i acc xs = acc ++ joinAll (xs.map (fun s => s ++ ","))
  | [], i, acc, _ => by simp [list_to_csv_go, joinAll, String.append_empty]
  | x :: xs, i, acc, h => by
      have hi : ¬ i = n := by simp at h; omega
      rw [list_to_csv_go, if_neg hi,
        list_to_csv_go_spec n xs (i + 1) (acc ++ x ++ ",") (by simp at h ⊢; omega)]
      simp [joinAll, String.append_assoc]

/-- C8: list_to_csv returns the concatenation of the elements each followed
by a comma — the trailing separator included, since the last-element test i
== len(data) never fires under enumerate — and the empty string for the
empty list. -/
theorem c8_list_to_csv_trailing_comma (data : List String) :
    list_to_csv data = joinAll (data.map (fun s => s ++ ","))
    ∧ list_to_csv ([] : List String) = "" := by
  exact ⟨list_to_csv_go_spec data.length data 0 "" (by simp), rfl⟩

/-! ## C6: the template lookup resolves each term or fails -/

/-- C6: LookupModule.run succeeds exactly when every term resolves to a
truthy file, in which case the returned list is the in-order image of the
terms under templating — one entry per term, so equal in length. -/
theorem c6_template_lookup (env : TplEnv) (terms : List String) (rs : List PyVal) :
    (lookupRun env terms = .ok rs ↔
      ((∀ t ∈ terms, truthyOptStr (env.find_file t) = true)
        ∧ rs = terms.map (tplRendered env)))
    ∧ (lookupRun env terms = .ok rs → rs.length = terms.length) := by
  have main : ∀ (ts : List String) (rs2 : List PyVal), lookupRun env ts = Except.ok rs2 ↔
      ((∀ t ∈ ts, truthyOptStr (env.find_file t) = true)
        ∧ rs2 = ts.map (tplRendered env)) := by
    intro ts
    induction ts with
    | nil =>
        intro rs2
        simp only [lookupRun, List.map_nil, List.not_mem_nil, false_implies, implies_true,
          true_and, Except.ok.injEq]
        exact ⟨fun h => h.symm, fun h => h.symm⟩
    | cons t ts ih =>
        intro rs2
        cases hf : env.find_file t with
        | none =>
            constructor
            · intro h
              simp only [lookupRun, hf] at h
              cases h
            · rintro ⟨hall, -⟩
              have h1 := hall t (List.mem_cons_self t ts)
              rw [hf] at h1
              exact absurd h1 (by decide)
        | some f =>
            cases hfe : f.isEmpty with
            | true =>
                constructor
                · intro h
                  simp only [lookupRun, hf, hfe, Bool.not_true, Bool.false_eq_true,
                    if_false] at h
                  cases h
                · rintro ⟨hall, -⟩
                  have h1 := hall t (List.mem_cons_self t ts)
                  rw [hf] at h1
                  simp only [truthyOptStr, optStrToVal, pyTruthy, hfe] at h1
                  cases h1
            | false =>
                have hstep : lookupRun env (t :: ts) =
                    (match lookupRun env ts with
                      | .ok rs3 => .ok (env.render f :: rs3)
                      | .error e => .error e) := by
                  simp only [lookupRun, hf, hfe, Bool.not_false, if_true]
                cases hrec : lookupRun env ts with
                | error e =>
                    rw [hrec] at hstep
                    constructor
                    · intro h
                      rw [hstep] at h
                      cases h
                    · rintro ⟨hall, -⟩
                      have h2 := (ih (ts.map (tplRendered env))).mpr
                        ⟨fun u hu => hall u (List.mem_cons_of_mem t hu), rfl⟩
                      rw [hrec] at h2
                      cases h2
                | ok rs3 =>
                    rw [hrec] at hstep
                    have h3 := (ih rs3).mp hrec
                    rw [hstep]
                    constructor
                    · intro h
                      have hrs : rs2 = env.render f :: rs3 := by
                        cases h; rfl
                      refine ⟨?_, ?_⟩
                      · intro u hu
                        rcases List.mem_cons.mp hu with rfl | hu2
                        · simp [truthyOptStr, optStrToVal, pyTruthy, hf, hfe]
                        · exact h3.1 u hu2
                      · rw [hrs, List.map_cons, h3.2, tplRendered, hf]
                        rfl
                    · rintro ⟨hall, rfl⟩
                      rw [List.map_cons, h3.2, tplRendered, hf]
                      rfl
  refine ⟨main terms rs, fun h => ?_⟩
  rw [((main terms rs).mp h).2, List.length_map]

/-- Witness for C6: a two-term run where both terms resolve returns exactly
one templated entry per term, in order. -/
theorem c6_template_lookup_witness :
    lookupRun ⟨fun t => some ("f" ++ t), fun f => .str f⟩ ["a", "b"]
      = .ok [.str "fa", .str "fb"] := by
  have h := (c6_template_lookup ⟨fun t => some ("f" ++ t), fun f => .str f⟩
    ["a", "b"] [.str "fa", .str "fb"]).1.mpr
  apply h
  constructor
  · intro t ht
    rcases List.mem_cons.mp ht with rfl | ht2
    · rfl
    · rcases List.mem_cons.mp ht2 with rfl | h3
      · rfl
      · cases h3
  · rfl

/-! ## C10: construct_payload is a shape-preserving key renaming -/

/-- Helper: on a value built from lists, dicts, strs and ints whose dict
keys all occur in key_map, construct_payload terminates successfully with
the key-renamed image. -/
theorem construct_payload_good_spec :
    ∀ v : PyVal, goodVal v = true → construct_payload v = .ok (renameKeys v) :=
  construct_payload.induct
    (fun v => goodVal v = true → construct_payload v = .ok (renameKeys v))
    (fun kvs => goodDict kvs = true → cpDict kvs = .ok (rkDict kvs))
    (fun xs => goodList xs = true → cpList xs = .ok (rkList xs))
    (fun xs ih h => by
      have hg : goodList xs = true := by simpa [goodVal] using h
      simp only [construct_payload, renameKeys, ih hg]
      rfl)
    (fun kvs ih h => by
      have hg : goodDict kvs = true := by simpa [goodVal] using h
      simp only [construct_payload, renameKeys, ih hg]
      rfl)
    (fun s _ => by simp [construct_payload, renameKeys]; rfl)
    (fun n _ => by simp [construct_payload, renameKeys]; rfl)
    (fun h => by simp [goodVal] at h)
    (fun b h => by simp [goodVal] at h)
    (fun _ => by simp [cpList, rkList]; rfl)
    (fun x xs ih1 ih3 h => by
      have hg : goodVal x = true ∧ goodList xs = true := by
        simpa [goodList, Bool.and_eq_true] using h
      simp only [cpList, rkList, ih1 hg.1, ih3 hg.2]
      rfl)
    (fun _ => by simp [cpDict, rkDict]; rfl)
    (fun k v rest ih1 ih2 h => by
      have hg : (lookupKV key_map k).isSome = true ∧ goodVal v = true
          ∧ goodDict rest = true := by
        simpa [goodDict, Bool.and_eq_true, and_assoc] using h
      obtain ⟨k2, hk2⟩ := Option.isSome_iff_exists.mp hg.1
      simp only [cpDict, rkDict, ih1 hg.2.1, ih2 hg.2.2, hk2, Option.getD_some]
      rfl)

/-- Helper: renameKeys preserves the shape of its input. -/
theorem renameKeys_sameShape :
    ∀ v : PyVal, sameShape v (renameKeys v) = true :=
  renameKeys.induct
    (fun v => sameShape v (renameKeys v) = true)
    (fun kvs => sameShapeDict kvs (rkDict kvs) = true)
    (fun xs => sameShapeList xs (rkList xs) = true)
    (fun xs ih => by simp only [renameKeys, sameShape]; exact ih)
    (fun kvs ih => by simp only [renameKeys, sameShape]; exact ih)
    (fun s => by simp [renameKeys, sameShape])
    (fun n => by simp [renameKeys, sameShape])
    (by simp [renameKeys, sameShape])
    (fun b => by simp [renameKeys, sameShape])
    (by simp [rkList, sameShapeList])
    (fun x xs ih1 ih3 => by
      simp only [rkList, sameShapeList, Bool.and_eq_true]
      exact ⟨ih1, ih3⟩)
    (by simp [rkDict, sameShapeDict])
    (fun k v rest ih1 ih2 => by
      simp only [rkDict, sameShapeDict, Bool.and_eq_true]
      exact ⟨ih1, ih2⟩)

/-- Helper: the only exception construct_payload ever raises is a KeyError
(from the key_map subscript). -/
theorem construct_payload_error_isKeyError :
    ∀ v : PyVal, ∀ e, construct_payload v = .error e → ∃ k, e = .keyError k :=
  construct_payload.induct
    (fun v => ∀ e, construct_payload v = .error e → ∃ k, e = .keyError k)
    (fun kvs => ∀ e, cpDict kvs = .error e → ∃ k, e = .keyError k)
    (fun xs => ∀ e, cpList xs = .error e → ∃ k, e = .keyError k)
    (fun xs ih e h => by
      simp only [construct_payload] at h
      cases hrec : cpList xs with
      | error e2 =>
          rw [hrec] at h
          cases h
          exact ih e hrec
      | ok ys => rw [hrec] at h; cases h)
    (fun kvs ih e h => by
      simp only [construct_payload] at h
      cases hrec : cpDict kvs with
      | error e2 =>
          rw [hrec] at h
          cases h
          exact ih e hrec
      | ok ys => rw [hrec] at h; cases h)
    (fun s e h => by simp only [construct_payload] at h; cases h)
    (fun n e h => by simp only [construct_payload] at h; cases h)
    (fun e h => by simp only [construct_payload] at h; cases h)
    (fun b e h => by simp only [construct_payload] at h; cases h)
    (fun e h => by simp only [cpList] at h; cases h)
    (fun x xs ih1 ih3 e h => by
      simp only [cpList] at h
      cases h1 : construct_payload x with
      | error e2 =>
          rw [h1] at h
          cases h
          exact ih1 e h1
      | ok y =>
          rw [h1] at h
          cases h3 : cpList xs with
          | error e2 =>
              rw [h3] at h
              cases h
              exact ih3 e h3
          | ok ys => rw [h3] at h; cases h)
    (fun e h => by simp only [cpDict] at h; cases h)
    (fun k v rest ih1 ih2 e h => by
      simp only [cpDict] at h
      cases h1 : construct_payload v with
      | error e2 =>
          rw [h1] at h
          cases h
          exact ih1 e h1
      | ok v2 =>
          rw [h1] at h
          cases hk : lookupKV key_map k with
          | none =>
              rw [hk] at h
              cases h
              exact ⟨k, rfl⟩
          | some k2 =>
              rw [hk] at h
              cases h2 : cpDict rest with
              | error e2 =>
                  rw [h2] at h
                  cases h
                  exact ih2 e h2
              | ok rest2 => rw [h2] at h; cases h)

/-- Helper: a dict containing a key outside key_map makes construct_payload
raise a KeyError. -/
theorem construct_payload_bad_key :
    ∀ kvs : List (String × PyVal),
    (∃ kv ∈ kvs, lookupKV key_map kv.1 = Option.none) →
    ∃ k, construct_payload (.dict kvs) = .error (.keyError k) := by
  have aux : ∀ kvs : List (String × PyVal),
      (∃ kv ∈ kvs, lookupKV key_map kv.1 = Option.none) →
      ∃ k, cpDict kvs = .error (.keyError k) := by
    intro kvs
    induction kvs with
    | nil => rintro ⟨kv, hkv, -⟩; cases hkv
    | cons hd rest ih =>
        rintro ⟨kv, hkv, hbad⟩
        obtain ⟨k, v⟩ := hd
        cases h1 : construct_payload v with
        | error e =>
            obtain ⟨k3, hk3⟩ := construct_payload_error_isKeyError v e h1
            refine ⟨k3, ?_⟩
            simp only [cpDict, h1, hk3]
            rfl
        | ok v2 =>
            cases hk : lookupKV key_map k with
            | none =>
                refine ⟨k, ?_⟩
                simp only [cpDict, h1, hk]
                rfl
            | some k2 =>
                rcases List.mem_cons.mp hkv with rfl | hmem
                · rw [hk] at hbad; cases hbad
                · obtain ⟨k3, hk3⟩ := ih ⟨kv, hmem, hbad⟩
                  refine ⟨k3, ?_⟩
                  simp only [cpDict, h1, hk, hk3]
                  rfl
  intro kvs hbad
  obtain ⟨k, hk⟩ := aux kvs hbad
  refine ⟨k, ?_⟩
  simp only [construct_payload, hk]
  rfl

/-- Counterexample to C10 as stated: a bool leaf is not mapped to None —
Python bool is a subclass of int, so `isinstance(True, int)` holds and the
str-or-int branch returns the bool unchanged. -/
theorem c10_bool_leaf_counterexample :
    construct_payload (.bool true) = .ok (.bool true)
    ∧ ¬ construct_payload (.bool true) = .ok PyVal.none := by
  constructor
  · rfl
  · intro h
    rw [show construct_payload (.bool true) = .ok (.bool true) from rfl] at h
    injection h with h2
    exact PyVal.noConfusion h2

/-- C10 (amended): construct_payload is a shape-preserving key renaming: on
any value built from nested lists, dicts, strs and ints whose dict keys all
occur in key_map it terminates with the same-shaped value whose dict keys
are the key_map images and whose str and int leaves are unchanged; a None
leaf is mapped to None (by falling off the end of the function) while a
bool leaf is returned unchanged (bool subclasses int, so the str-or-int
branch catches it); a dict containing a key outside key_map raises
KeyError. -/
theorem c10_construct_payload_renaming (v : PyVal) (kvs : List (String × PyVal))
    (b : Bool) (hv : goodVal v = true)
    (hbad : ∃ kv ∈ kvs, lookupKV key_map kv.1 = Option.none) :
    (construct_payload v = .ok (renameKeys v) ∧ sameShape v (renameKeys v) = true)
    ∧ construct_payload PyVal.none = .ok .none
    ∧ construct_payload (.bool b) = .ok (.bool b)
    ∧ ∃ k, construct_payload (.dict kvs) = .error (.keyError k) :=
  ⟨⟨construct_payload_good_spec v hv, renameKeys_sameShape v⟩,
   by simp [construct_payload]; rfl,
   by simp [construct_payload]; rfl,
   construct_payload_bad_key kvs hbad⟩

/-- Witness for C10 (amended) at a concrete nested rule parameter: keys are
renamed to camelCase, str/int and bool leaves kept, and an unknown key
raises. -/
theorem c10_construct_payload_renaming_witness :
    construct_payload (.dict [("public_ip", .str "1.2.3.4"),
        ("allowed_inbound", .list [.dict [("protocol", .str "tcp"),
          ("destination_ports", .list [.int 80])]])])
      = .ok (.dict [("publicIp", .str "1.2.3.4"),
        ("allowedInbound", .list [.dict [("protocol", .str "tcp"),
          ("destinationPorts", .list [.int 80])]])])
    ∧ construct_payload (.bool true) = .ok (.bool true)
    ∧ ∃ k, construct_payload (.dict [("bogus", .int 1)]) = .error (.keyError k) := by
  have h := c10_construct_payload_renaming
    (.dict [("public_ip", .str "1.2.3.4"),
        ("allowed_inbound", .list [.dict [("protocol", .str "tcp"),
          ("destination_ports", .list [.int 80])]])])
    [("bogus", .int 1)] true (by rfl)
    ⟨("bogus", .int 1), List.mem_cons_self _ _, rfl⟩
  exact ⟨h.1.1.trans (by rfl), h.2.2.1, h.2.2.2⟩

/-! ## C3: the state=present branch of meraki_nat is a no-op reconciler -/

/-- Helper: concatenation distinctness of the three NAT paths, by length. -/
theorem natPath_ne (a b : String) (ha : a.length ≠ b.length) (n : String) :
    "/networks/" ++ n ++ a ≠ "/networks/" ++ n ++ b := by
  intro h
  have h2 := congrArg String.length h
  simp only [String.length_append] at h2
  omega

/-- Helper: every request of a reconciliation block targets the block's
path. -/
theorem natPresentBlock_path (env : MerEnv) (path dataKey : String)
    (pl : Option PyVal) (r : MerResult) :
    ∀ q ∈ (natPresentBlock env path dataKey pl r).2, q.path = path := by
  cases pl with
  | none => simp [natPresentBlock]
  | some pl =>
      simp only [natPresentBlock]
      split
      · intro q hq
        rcases List.mem_cons.mp hq with rfl | hq2
        · rfl
        · rcases List.mem_cons.mp hq2 with rfl | h3
          · rfl
          · cases h3
      · intro q hq
        rcases List.mem_cons.mp hq with rfl | hq2
        · rfl
        · cases hq2

/-- Helper: a reconciliation block issues a PUT exactly when its payload is
present and the update comparison holds. -/
theorem natPresentBlock_put_mem (env : MerEnv) (path dataKey : String)
    (pl : Option PyVal) (r : MerResult) :
    ((⟨path, .PUT⟩ : MerReq) ∈ (natPresentBlock env path dataKey pl r).2) ↔
      bRequired env path pl = true := by
  cases pl with
  | none => simp [natPresentBlock, bRequired]
  | some pl =>
      simp only [natPresentBlock, bRequired]
      cases h : env.is_update_required (env.request path .GET) pl with
      | true => simp
      | false => simp

/-- Helper: when a block requires no update it passes the result through
and issues at most its GET. -/
theorem natPresentBlock_noop (env : MerEnv) (path dataKey : String)
    (pl : Option PyVal) (r : MerResult) (h : bRequired env path pl = false) :
    (natPresentBlock env path dataKey pl r).1 = r
    ∧ ∀ q ∈ (natPresentBlock env path dataKey pl r).2, q.method = .GET := by
  cases pl with
  | none => simp [natPresentBlock]
  | some pl =>
      simp only [bRequired] at h
      simp [natPresentBlock, h]

/-- C3: for state=present, each supplied payload kind leads to a PUT to its
component path exactly when is_update_required holds between the GET-fetched
current rules and the payload; and when no supplied kind requires an
update, only GETs are issued, result data stays unset and changed stays
False. -/
theorem c3_nat_present_noop (env : MerEnv) (netId : String)
    (o2oP o2mP pfP : Option PyVal) :
    (((⟨pathOf "1:1" netId, .PUT⟩ : MerReq) ∈ (natPresent env netId o2oP o2mP pfP).2)
        ↔ bRequired env (pathOf "1:1" netId) o2oP = true)
    ∧ (((⟨pathOf "1:many" netId, .PUT⟩ : MerReq) ∈ (natPresent env netId o2oP o2mP pfP).2)
        ↔ bRequired env (pathOf "1:many" netId) o2mP = true)
    ∧ (((⟨pathOf "port_forwarding" netId, .PUT⟩ : MerReq) ∈ (natPresent env netId o2oP o2mP pfP).2)
        ↔ bRequired env (pathOf "port_forwarding" netId) pfP = true)
    ∧ (bRequired env (pathOf "1:1" netId) o2oP = false →
       bRequired env (pathOf "1:many" netId) o2mP = false →
       bRequired env (pathOf "port_forwarding" netId) pfP = false →
       (∀ q ∈ (natPresent env netId o2oP o2mP pfP).2, q.method = .GET)
         ∧ (natPresent env netId o2oP o2mP pfP).1.data = Option.none
         ∧ (natPresent env netId o2oP o2mP pfP).1.changed = false) := by
  have e1 : pathOf "1:1" netId = "/networks/" ++ netId ++ "/oneToManyNatRules" := rfl
  have e2 : pathOf "1:many" netId = "/networks/" ++ netId ++ "/oneToOneNatRules" := rfl
  have e3 : pathOf "port_forwarding" netId = "/networks/" ++ netId ++ "/portForwardingRules" := rfl
  have hne12 : pathOf "1:1" netId ≠ pathOf "1:many" netId := by
    rw [e1, e2]; exact natPath_ne _ _ (by decide) netId
  have hne13 : pathOf "1:1" netId ≠ pathOf "port_forwarding" netId := by
    rw [e1, e3]; exact natPath_ne _ _ (by decide) netId
  have hne23 : pathOf "1:many" netId ≠ pathOf "port_forwarding" netId := by
    rw [e2, e3]; exact natPath_ne _ _ (by decide) netId
  have htr : (natPresent env netId o2oP o2mP pfP).2 =
      (natPresentBlock env (pathOf "1:1" netId) "one_to_one" o2oP meraki_initial_result).2
      ++ (natPresentBlock env (pathOf "1:many" netId) "one_to_many" o2mP
            (natPresentBlock env (pathOf "1:1" netId) "one_to_one" o2oP meraki_initial_result).1).2
      ++ (natPresentBlock env (pathOf "port_forwarding" netId) "port_forwarding" pfP
            (natPresentBlock env (pathOf "1:many" netId) "one_to_many" o2mP
              (natPresentBlock env (pathOf "1:1" netId) "one_to_one" o2oP meraki_initial_result).1).1).2 := rfl
  refine ⟨?_, ?_, ?_, ?_⟩
  · rw [htr]
    simp only [List.mem_append]
    rw [← natPresentBlock_put_mem env (pathOf "1:1" netId) "one_to_one" o2oP meraki_initial_result]
    constructor
    · rintro ((h | h) | h)
      · exact h
      · exact (hne12 (natPresentBlock_path env _ _ _ _ _ h)).elim
      · exact (hne13 (natPresentBlock_path env _ _ _ _ _ h)).elim
    · exact fun h => Or.inl (Or.inl h)
  · rw [htr]
    simp only [List.mem_append]
    rw [← natPresentBlock_put_mem env (pathOf "1:many" netId) "one_to_many" o2mP
      (natPresentBlock env (pathOf "1:1" netId) "one_to_one" o2oP meraki_initial_result).1]
    constructor
    · rintro ((h | h) | h)
      · exact (hne12.symm (natPresentBlock_path env _ _ _ _ _ h)).elim
      · exact h
      · exact (hne23 (natPresentBlock_path env _ _ _ _ _ h)).elim
    · exact fun h => Or.inl (Or.inr h)
  · rw [htr]
    simp only [List.mem_append]
    rw [← natPresentBlock_put_mem env (pathOf "port_forwarding" netId) "port_forwarding" pfP
      (natPresentBlock env (pathOf "1:many" netId) "one_to_many" o2mP
        (natPresentBlock env (pathOf "1:1" netId) "one_to_one" o2oP meraki_initial_result).1).1]
    constructor
    · rintro ((h | h) | h)
      · exact (hne13.symm (natPresentBlock_path env _ _ _ _ _ h)).elim
      · exact (hne23.symm (natPresentBlock_path env _ _ _ _ _ h)).elim
      · exact h
    · exact fun h => Or.inr h
  · intro h1 h2 h3
    have b1 := natPresentBlock_noop env (pathOf "1:1" netId) "one_to_one" o2oP
      meraki_initial_result h1
    have b2 := natPresentBlock_noop env (pathOf "1:many" netId) "one_to_many" o2mP
      (natPresentBlock env (pathOf "1:1" netId) "one_to_one" o2oP meraki_initial_result).1 h2
    have b3 := natPresentBlock_noop env (pathOf "port_forwarding" netId) "port_forwarding" pfP
      (natPresentBlock env (pathOf "1:many" netId) "one_to_many" o2mP
        (natPresentBlock env (pathOf "1:1" netId) "one_to_one" o2oP meraki_initial_result).1).1 h3
    have hres : (natPresent env netId o2oP o2mP pfP).1 = meraki_initial_result := by
      show (natPresentBlock env (pathOf "port_forwarding" netId) "port_forwarding" pfP
        (natPresentBlock env (pathOf "1:many" netId) "one_to_many" o2mP
          (natPresentBlock env (pathOf "1:1" netId) "one_to_one" o2oP meraki_initial_result).1).1).1
        = meraki_initial_result
      rw [b3.1, b2.1, b1.1]
    refine ⟨?_, ?_, ?_⟩
    · rw [htr]
      intro q hq
      rcases List.mem_append.mp hq with hq2 | hq3
      · rcases List.mem_append.mp hq2 with hqa | hqb
        · exact b1.2 q hqa
        · exact b2.2 q hqb
      · exact b3.2 q hq3
    · rw [hres]; rfl
    · rw [hres]; rfl

/-- Witness for C3: a concrete environment where the comparison never
requires an update — the supplied one_to_one payload leads to a single GET,
no PUT, no data and changed=False. -/
theorem c3_nat_present_noop_witness :
    (((⟨pathOf "1:1" "N1", .PUT⟩ : MerReq) ∈
        (natPresent ⟨fun _ _ => .none, fun _ _ => 200, fun _ _ => false⟩ "N1"
          (some (.dict [("rules", .list [])])) Option.none Option.none).2) ↔ False)
    ∧ (natPresent ⟨fun _ _ => .none, fun _ _ => 200, fun _ _ => false⟩ "N1"
        (some (.dict [("rules", .list [])])) Option.none Option.none).1.changed = false := by
  have h := c3_nat_present_noop ⟨fun _ _ => .none, fun _ _ => 200, fun _ _ => false⟩ "N1"
    (some (.dict [("rules", .list [])])) Option.none Option.none
  constructor
  · rw [h.1]
    simp [bRequired]
  · exact (h.2.2.2 rfl rfl rfl).2.2

/-! ## C4: the query subset=all branch of meraki_nat -/

/-- Counterexample to C4: at a concrete environment whose GET responses name
their paths, the subset=all branch returns a result whose data retains all
three components together — the 1:many, 1:1 and port_forwarding keys each
hold their component's GET response (fetched from the swapped catalog
paths); nothing is dropped and the try/except block is never reached. -/
theorem c4_query_all_drops_counterexample :
    natQuery ⟨fun p _ => .str p, fun _ _ => 200, fun _ _ => false⟩ "N1" ["all"]
        meraki_initial_result
      = .ok (⟨some (.dict
            [("1:many", .str "/networks/N1/oneToOneNatRules"),
             ("1:1", .str "/networks/N1/oneToManyNatRules"),
             ("port_forwarding", .str "/networks/N1/portForwardingRules")]),
          false⟩,
        [⟨"/networks/N1/oneToOneNatRules", .GET⟩,
         ⟨"/networks/N1/oneToManyNatRules", .GET⟩,
         ⟨"/networks/N1/portForwardingRules", .GET⟩]) := by
  rfl

/-- C4 (amended): for state=query with subset all, the final result data
retains the responses of all three components together — a dict mapping
1:many, 1:1 and port_forwarding each to the GET response from its catalog
path (the catalog swaps the 1:many and 1:1 URL templates); the
try/except KeyError block of the per-subset loop is not involved. -/
theorem c4_query_all_retains (rest : List String) (netId : String)
    (env : MerEnv) (r0 : MerResult) :
    natQuery env netId ("all" :: rest) r0
      = .ok (⟨some (.dict
            [("1:many", env.request (pathOf "1:many" netId) .GET),
             ("1:1", env.request (pathOf "1:1" netId) .GET),
             ("port_forwarding", env.request (pathOf "port_forwarding" netId) .GET)]),
          r0.changed⟩,
        [⟨pathOf "1:many" netId, .GET⟩,
         ⟨pathOf "1:1" netId, .GET⟩,
         ⟨pathOf "port_forwarding" netId, .GET⟩]) := by
  simp [natQuery, natQueryAll, dictSet]

/-! ## C9: meraki_wireless_health_facts queries only for type=connectivity -/

/-- C9: an invocation that passes parameter validation (and is not in check
mode) with type latency, failure or unset issues no request, adds no data
key, and exits successfully with the untouched result. -/
theorem c9_only_connectivity_queries (p : WHParams) (env : WHEnv) (r0 : MerResult)
    (h1 : whfOrgMissing p = false) (h2 : whfNetConflict p = false)
    (hty : p.typ = some "latency" ∨ p.typ = some "failure" ∨ p.typ = Option.none) :
    whfMain p false env r0 = (.exitJson r0, []) := by
  have hty2 : ¬ p.typ = some "connectivity" := by
    rcases hty with h | h | h <;> simp [h]
  simp [whfMain, h1, h2, hty2]

/-- Witness for C9: a concrete latency invocation with valid org and net
parameters exits with the initial result and an empty request trace. -/
theorem c9_only_connectivity_queries_witness :
    whfMain
      ⟨some "N", Option.none, some "O", Option.none, some "latency", Option.none,
       Option.none, Option.none, some 0, some 100, Option.none, Option.none,
       Option.none, Option.none⟩
      false
      ⟨fun _ => "", fun _ => .none, fun _ _ => "", fun _ _ => "", fun _ _ => .none,
       fun _ => 200⟩
      meraki_initial_result
    = (.exitJson meraki_initial_result, []) := by
  exact c9_only_connectivity_queries _ _ _ rfl rfl (Or.inl rfl)

/-! ## C5: the resize branch of digital_ocean_volume core -/

/-- Helper: volume-id resolution only reads. -/
theorem resolveVid_reads (p : DOParams) (env : DOEnv) :
    ∀ q ∈ (resolveVid p env).1, q.isRead = true := by
  unfold resolveVid
  split <;> simp [DOReq.isRead]

/-- Helper: snapshot-id resolution only reads. -/
theorem resolveSid_reads (p : DOParams) (env : DOEnv) (vid : PyVal) :
    ∀ q ∈ (resolveSid p env vid).1, q.isRead = true := by
  unfold resolveSid
  split
  · split <;> simp [DOReq.isRead]
  · simp

/-- Helper: droplet-id resolution only reads. -/
theorem resolveDid_reads (p : DOParams) (env : DOEnv) :
    ∀ q ∈ (resolveDid p env).1, q.isRead = true := by
  unfold resolveDid
  split <;> simp [DOReq.isRead]

/-- Helper: the whole resolution phase only reads — it issues no POST and no
DELETE. -/
theorem resolvePhase_reads (p : DOParams) (env : DOEnv) :
    ∀ q ∈ (resolvePhase p env).1, q.isRead = true := by
  have h1 := resolveVid_reads p env
  rcases hv : resolveVid p env with ⟨tr1, r1⟩
  rw [hv] at h1
  unfold resolvePhase
  rw [hv]
  cases r1 with
  | error e => exact h1
  | ok vid =>
      dsimp only
      have h2 := resolveSid_reads p env vid
      rcases hs : resolveSid p env vid with ⟨tr2, r2⟩
      rw [hs] at h2
      cases r2 with
      | error e =>
          dsimp only
          intro q hq
          rcases List.mem_append.mp hq with hqa | hqb
          · exact h1 q hqa
          · exact h2 q hqb
      | ok sid =>
          dsimp only
          have h3 := resolveDid_reads p env
          rcases hd : resolveDid p env with ⟨tr3, r3⟩
          rw [hd] at h3
          cases r3 with
          | error e =>
              dsimp only
              intro q hq
              rcases List.mem_append.mp hq with hqab | hqc
              · rcases List.mem_append.mp hqab with hqa | hqb
                · exact h1 q hqa
                · exact h2 q hqb
              · exact h3 q hqc
          | ok did =>
              dsimp only
              intro q hq
              rcases List.mem_append.mp hq with hqab | hqc
              · rcases List.mem_append.mp hqab with hqa | hqb
                · exact h1 q hqa
                · exact h2 q hqb
              · exact h3 q hqc

/-- Counterexample to C5 as stated: a state=present invocation with
resize_gigabytes set — to 0 — issues no POST to the volume action endpoint
at all; the truthiness test skips the resize branch and a volume-creation
POST is attempted instead, exiting through the creation status mapping. -/
theorem c5_resize_counterexample :
    core ⟨Option.none, Option.none, some "v1", Option.none, some 0, Option.none,
        Option.none, Option.none, "present", Option.none, Option.none,
        Option.none, Option.none⟩
      ⟨fun _ => (200, .none), fun _ => .none, fun _ _ => (201, .str "created"),
        fun _ => (204, .none)⟩
    = ([DOReq.post "volumes" (.dict [("name", .none), ("region", .none),
          ("size_gigabytes", .none), ("description", .none)])],
       .ok (.exitJson false (some (.str "created")))) := by
  rfl

/-- C5 (amended): for state=present with resize_gigabytes set to a truthy
(nonzero) value, once the resolution phase has produced ids, exactly one
further request is issued — a POST to volumes/{vid}/action with the resize
payload; the module exits with changed=True and the response body exactly
when its status is 202 and fails otherwise, and no volume-creation request
is attempted (the preceding resolution trace holds only reads). -/
theorem c5_resize_status_mapping (p : DOParams) (env : DOEnv) (tr : List DOReq)
    (vid sid did : PyVal)
    (hstate : p.state = "present") (hrg : truthyOptInt p.resize_gigabytes = true)
    (hres : resolvePhase p env = (tr, .ok (vid, sid, did))) :
    core p env = (tr ++ [DOReq.post ("volumes/" ++ pyFormat vid ++ "/action")
        (.dict [("type", .str "resize"), ("size", optIntToVal p.resize_gigabytes)])],
      .ok (if (env.post ("volumes/" ++ pyFormat vid ++ "/action")
            (.dict [("type", .str "resize"), ("size", optIntToVal p.resize_gigabytes)])).1 = 202
        then .exitJson true (some (env.post ("volumes/" ++ pyFormat vid ++ "/action")
            (.dict [("type", .str "resize"), ("size", optIntToVal p.resize_gigabytes)])).2)
        else .failJson))
    ∧ ∀ q ∈ tr, q.isRead = true := by
  constructor
  · unfold core
    rw [hres, hstate]
    simp only [if_true, reduceIte]
    unfold presentPhase
    rw [hrg]
    simp only [if_true, reduceIte]
  · have h := resolvePhase_reads p env
    rw [hres] at h
    exact h

/-- Witness for C5 (amended) at a concrete resize invocation: the single
action POST is issued and a 202 response exits changed=True with the body. -/
theorem c5_resize_status_mapping_witness :
    core ⟨Option.none, Option.none, some "v1", Option.none, some 2, Option.none,
        Option.none, Option.none, "present", Option.none, Option.none,
        Option.none, Option.none⟩
      ⟨fun _ => (200, .none), fun _ => .none, fun _ _ => (202, .str "resized"),
        fun _ => (204, .none)⟩
    = ([DOReq.post "volumes/v1/action"
          (.dict [("type", .str "resize"), ("size", .int 2)])],
       .ok (.exitJson true (some (.str "resized")))) := by
  have h := c5_resize_status_mapping
    ⟨Option.none, Option.none, some "v1", Option.none, some 2, Option.none,
        Option.none, Option.none, "present", Option.none, Option.none,
        Option.none, Option.none⟩
    ⟨fun _ => (200, .none), fun _ => .none, fun _ _ => (202, .str "resized"),
        fun _ => (204, .none)⟩
    [] (.str "v1") .none .none rfl rfl rfl
  exact h.1.trans (by rfl)

/-! ## C7: the shipped digital_ocean_volume.py text -/

set_option maxRecDepth 200000 in
/-- Counterexample to C7: the shipped file contains neither the claimed
syntax error text (the get_did return line carries no trailing colon) nor
the module.parms attribute anywhere, and its mututally_exclusive
misspelling occurs only on comment lines — so the defects the claim says
prevent the module from loading are absent from the shipped revision. -/
theorem c7_unloadable_counterexample :
    do_volume_lines.all (fun l => !strHasSub l "return droplet[\x27id\x27]:") = true
    ∧ do_volume_lines.all (fun l => !strHasSub l "module.parms") = true
    ∧ do_volume_lines.all
        (fun l => !strHasSub l "mututally_exclusive" || isCommentLine l) = true := by
  refine ⟨rfl, rfl, rfl⟩

set_option maxRecDepth 200000 in
/-- C7 (amended): the shipped digital_ocean_volume.py revision reads
`return droplet['id']` without a colon on the get_did return line, contains
no `module.parms` at all, and spells `mututally_exclusive` only inside the
commented-out AnsibleModule argument line — so the claimed load-preventing
syntax error and attribute typos are not present in the shipped file. -/
theorem c7_shipped_text_loadable :
    do_volume_lines.get? 208 = some "            return droplet[\x27id\x27]"
    ∧ do_volume_lines.all (fun l => !strHasSub l "return droplet[\x27id\x27]:") = true
    ∧ do_volume_lines.all (fun l => !strHasSub l "module.parms") = true
    ∧ do_volume_lines.get? 317
        = some "                           # mututally_exclusive=mutually_exclusive)"
    ∧ isCommentLine "                           # mututally_exclusive=mutually_exclusive)" = true
    ∧ do_volume_lines.all
        (fun l => !strHasSub l "mututally_exclusive" || isCommentLine l) = true := by
  refine ⟨rfl, rfl, rfl, rfl, rfl, rfl⟩
